import Mathlib

/-!
Verification of the risk-assessment and session engine of the
Cybersecurity-Senior-App backend.

The definitions below are a shallow embedding of the Python sources:

- `backend/risk_engine/base.py` (clamping, level thresholds, response builder)
- `backend/risk_engine/callguard.py` (rule-based scorer)
- `backend/risk_engine/moneyguard.py`
- `backend/risk_engine/inboxguard.py`
- `backend/risk_engine/identitywatch.py`
- `backend/storage/encryption.py` (payload cipher wrapper)
- `backend/storage/memory.py` (in-memory session store, retention sweep)
- `backend/main.py` (event-append handler and per-module dispatcher)

Python dictionaries are modelled as association lists with distinct keys
(payloads arrive from JSON objects, whose keys are unique), datetimes as
integers counting seconds, and arbitrary JSON payload values by the
inductive type `PyVal`.  Library calls (the Fernet cipher, base64) are
modelled by an abstract `Cipher` structure carrying the contracts that the
library documents.  Theorems are stated over these definitions.
-/

/-- A duck-typed Python/JSON value as it appears in event payloads. -/
inductive PyVal where
  | none
  | bool (b : Bool)
  | num (q : ℚ)
  | str (s : String)
  | list (l : List PyVal)
  | dict (d : List (String × PyVal))

/-- Python truthiness of a `PyVal` (bool(v)). -/
def PyVal.truthy : PyVal → Bool
  | .none => false
  | .bool b => b
  | .num q => q != 0
  | .str s => !s.data.isEmpty
  | .list l => !l.isEmpty
  | .dict d => !d.isEmpty

/-- Dictionary read with default, modelling `d.get(k, dflt)`. -/
def pyGet (d : List (String × PyVal)) (k : String) (dflt : PyVal) : PyVal :=
  (List.lookup k d).getD dflt

/-- Python `a or b` specialised to the payload values the engine reads. -/
def pyOr (a b : PyVal) : PyVal :=
  if a.truthy then a else b

/-- ASCII lower-casing of one character.  The sources call `str.lower`,
which the engine only ever applies to ASCII keyword material. -/
def lowerChar (c : Char) : Char :=
  if 'A' ≤ c ∧ c ≤ 'Z' then Char.ofNat (c.toNat + 32) else c

/-- ASCII model of Python `str.lower()`. -/
def sLower (s : String) : String := ⟨s.data.map lowerChar⟩

/-- Whitespace as recognised by Python `str.strip()` and the regex
class backslash-s (ASCII fragment). -/
def isPySpace (c : Char) : Bool :=
  c = ' ' || c = '\t' || c = '\n' || c = '\x0d' || c = '\x0b' || c = '\x0c'

/-- Decides whether `pat` begins `l` (character lists). -/
def leadsWith : List Char → List Char → Bool
  | [], _ => true
  | _ :: _, [] => false
  | p :: ps, c :: cs => p == c && leadsWith ps cs

/-- Python substring test `pat in hay` on character lists. -/
def containsSeq (hay pat : List Char) : Bool :=
  leadsWith pat hay ||
    match hay with
    | [] => false
    | _ :: t => containsSeq t pat

/-- Python substring test `pat in hay` on strings. -/
def strContains (hay pat : String) : Bool := containsSeq hay.data pat.data

/-- Model of `s.replace(a, b)` for a single-character pattern; the
sources only replace underscores by spaces. -/
def underscoresToSpaces (s : String) : String :=
  ⟨s.data.map (fun c => if c = '_' then ' ' else c)⟩

/-- A recommended action, from `backend/models.py` (`RecommendedAction`). -/
structure RecommendedAction where
  id : String
  title : String
  detail : String
  deriving DecidableEq

/-- A safe script, from `backend/models.py` (`SafeScript`). -/
structure SafeScript where
  say_this : String
  if_they_push_back : String
  deriving DecidableEq

/-- A risk response, from `backend/models.py` (`RiskResponse`).  The
`level` field keeps the literal strings the Python code uses; `metadata`
is a string-keyed map of JSON values. -/
structure RiskResponse where
  score : Int
  level : String
  reasons : List String
  next_action : String
  recommended_actions : List RecommendedAction
  safe_script : Option SafeScript
  metadata : List (String × PyVal)

/-- From `risk_engine/base.py`: `clamp_score`. -/
def clamp_score (score : Int) : Int := max 0 (min 100 score)

/-- From `risk_engine/base.py`: `score_to_level`. -/
def score_to_level (score : Int) : String :=
  if score ≥ 70 then "high"
  else if score ≥ 35 then "medium"
  else "low"

/-- From `risk_engine/base.py`: `build_risk_response`.  Note that the
score is clamped but the level is computed from the raw score. -/
def build_risk_response (score : Int) (reasons : List String)
    (next_action : String) (recommended_actions : List RecommendedAction)
    (safe_script : Option SafeScript := Option.none)
    (metadata : List (String × PyVal) := []) : RiskResponse :=
  { score := clamp_score score
    level := score_to_level score
    reasons := reasons
    next_action := next_action
    recommended_actions := recommended_actions
    safe_script := safe_script
    metadata := metadata }

/-- The invariant every scorer output is claimed to satisfy: the score is
within bounds and the level agrees with the threshold rule applied to the
returned (clamped) score. -/
def WellLeveled (r : RiskResponse) : Prop :=
  0 ≤ r.score ∧ r.score ≤ 100 ∧ r.level = score_to_level r.score

namespace CallGuard

/-- From `risk_engine/callguard.py`: `SIGNAL_WEIGHTS` (complete table,
including the common scam patterns). -/
def SIGNAL_WEIGHTS : List (String × Nat) :=
  [("urgency", 10),
   ("bank_impersonation", 25),
   ("government_impersonation", 25),
   ("tech_support", 20),
   ("remote_access_request", 30),
   ("verification_code_request", 35),
   ("gift_cards", 30),
   ("crypto_payment", 30),
   ("threats_or_arrest", 25),
   ("too_good_to_be_true", 15),
   ("asks_to_keep_secret", 15),
   ("caller_id_mismatch", 20),
   ("grandparent_scam", 30),
   ("family_emergency_scam", 30),
   ("medicare_scam", 25),
   ("health_insurance_scam", 25),
   ("romance_scam", 25),
   ("lottery_scam", 30),
   ("sweepstakes_scam", 30),
   ("investment_scam", 28),
   ("charity_scam", 20),
   ("disaster_relief_scam", 20),
   ("contractor_scam", 25),
   ("home_repair_scam", 25),
   ("upfront_payment_request", 25),
   ("wont_meet_in_person", 20),
   ("refuses_video_chat", 15)]

/-- `SIGNAL_WEIGHTS.get(signal, 0)`. -/
def weightOf (s : String) : Nat := (List.lookup s SIGNAL_WEIGHTS).getD 0

/-- From `risk_engine/callguard.py`: `SAFE_SCRIPTS` (complete table).
Apostrophes are written as the escape x27. -/
def SAFE_SCRIPTS : List (String × SafeScript) :=
  [("bank_impersonation",
    ⟨"I will call the bank back using the number on my card.",
     "I don\x27t share information on inbound calls. I\x27ll reach out directly."⟩),
   ("government_impersonation",
    ⟨"I don\x27t handle legal matters over the phone. I will contact the agency directly.",
     "Please send official mail. I won\x27t continue this call."⟩),
   ("tech_support",
    ⟨"I don\x27t grant remote access. I\x27ll contact support using the official site.",
     "No remote access. I\x27m ending the call now."⟩),
   ("verification_code_request",
    ⟨"I never share verification codes.",
     "Without that, I can\x27t proceed. Goodbye."⟩),
   ("gift_cards",
    ⟨"I don\x27t pay with gift cards.",
     "That payment method isn\x27t acceptable. I\x27m ending this call."⟩),
   ("grandparent_scam",
    ⟨"I need to verify this is really you. What\x27s your middle name?",
     "I\x27ll call you back on your number I have saved. If it\x27s an emergency, contact other family members."⟩),
   ("family_emergency_scam",
    ⟨"I need to verify this independently. Let me call other family members first.",
     "I don\x27t make payments under pressure. I\x27ll verify this separately and call back."⟩),
   ("medicare_scam",
    ⟨"I don\x27t share my Medicare number over the phone. I\x27ll contact Medicare directly if needed.",
     "Medicare doesn\x27t call unsolicited. I\x27m ending this call."⟩),
   ("health_insurance_scam",
    ⟨"I\x27ll verify my benefits through my insurance portal or by calling the number on my card.",
     "I don\x27t share personal information on inbound calls. Goodbye."⟩),
   ("romance_scam",
    ⟨"I\x27d prefer to verify your identity through video chat before discussing money.",
     "I don\x27t send money to people I haven\x27t met in person. If this is real, we can discuss after we meet."⟩),
   ("lottery_scam",
    ⟨"I never enter lotteries, so I couldn\x27t have won. I\x27m not interested.",
     "Real prizes don\x27t require upfront payments. This call is over."⟩),
   ("sweepstakes_scam",
    ⟨"I don\x27t recall entering any sweepstakes. Please send official documentation by mail.",
     "Legitimate prizes don\x27t require payment. I\x27m hanging up now."⟩),
   ("investment_scam",
    ⟨"I don\x27t make investment decisions on cold calls. I\x27ll consult with my financial advisor.",
     "No legitimate investment requires immediate action. I\x27m ending this call."⟩),
   ("charity_scam",
    ⟨"I\x27ll verify the charity through Charity Navigator or GuideStar before donating.",
     "I don\x27t donate to charities that pressure me or only accept gift cards. Goodbye."⟩),
   ("contractor_scam",
    ⟨"I need a written contract and references before any work begins. Can you provide those?",
     "I don\x27t make decisions under pressure. I\x27ll get multiple quotes first. Goodbye."⟩),
   ("home_repair_scam",
    ⟨"I\x27ll need to see your license, insurance, and written estimate before any work.",
     "Legitimate contractors provide documentation. I\x27m ending this call."⟩)]

/-- From `risk_engine/callguard.py`: `_get_default_recommended_actions`. -/
def defaultRecommendedActions : List RecommendedAction :=
  [⟨"pause-call", "Pause and verify",
    "Take a breath, avoid sharing info, and verify the caller independently."⟩,
   ⟨"hang-up", "Hang up if pressured",
    "If they demand urgency or secrecy, end the call and call back using a trusted number."⟩]

/-- The loop of `_rule_based_assess` that tracks `highest_signal` and
`highest_weight`: starting from accumulator `(b, w)`, each signal whose
weight strictly exceeds the running maximum replaces it. -/
def primFold : List String → Option String → Nat → Option String × Nat
  | [], b, w => (b, w)
  | s :: t, b, w =>
      if weightOf s > w then primFold t (some s) (weightOf s) else primFold t b w

/-- The raw (pre-clamp) score of `_rule_based_assess`: every occurrence of
a signal adds its weight (`score += weight` inside the loop, unknown
signals add zero). -/
def rawScore (signals : List String) : Nat := (signals.map weightOf).sum

/-- From `risk_engine/callguard.py`: `_rule_based_assess`, restricted to
its declared input type `List[str]`.  The per-iteration effects of the
single Python loop are rendered variable by variable: the score sums the
weights, the reasons collect one line per positively weighted occurrence,
and `primFold` tracks the highest-weighted signal. -/
def ruleBased (signals : List String) : RiskResponse :=
  let score := rawScore signals
  let reasons := signals.filterMap (fun s =>
    if weightOf s > 0 then some ("Signal detected: " ++ underscoresToSpaces s)
    else Option.none)
  let best := (primFold signals Option.none 0).1
  let safe_script :=
    match best with
    | some s => List.lookup s SAFE_SCRIPTS
    | Option.none => Option.none
  let metadata : List (String × PyVal) :=
    [("primary_signal", PyVal.str (match best with | some s => s | Option.none => "none")),
     ("assessment_method", PyVal.str "rule_based"),
     ("signals_count", PyVal.num signals.length),
     ("signals_processed", PyVal.num ((signals.filter (fun s => weightOf s > 0)).length))]
  build_risk_response score
    (if reasons.isEmpty then ["No high-risk signals detected."] else reasons)
    "Verify the caller using an official phone number before sharing anything."
    defaultRecommendedActions safe_script metadata

/-- From `risk_engine/callguard.py`: the input filtering of `assess`
(`isinstance(s, str) and s.strip()`) followed by the rule-based fallback.
The AI paths are best-effort enrichment and, per the specification, the
rule-based scorer is the authoritative behaviour; with no LLM configured
`assess` always reaches `_rule_based_assess`. -/
def assessRule (signals : List PyVal) : RiskResponse :=
  ruleBased (signals.filterMap (fun v =>
    match v with
    | .str s => if s.data.any (fun c => !isPySpace c) then some s else Option.none
    | _ => Option.none))

end CallGuard

/-- Python `str(v)`.  For numbers, lists and dictionaries the exact Python
repr is not reproduced; it is irrelevant here because the scorers only
compare the result against fixed keyword tables (none of whose entries
is a numeric, list or dict repr). -/
def pyStr : PyVal → String
  | .str s => s
  | .bool true => "True"
  | .bool false => "False"
  | .none => "None"
  | .num q => toString q
  | .list _ => "[...]"
  | .dict _ => "\x7b...\x7d"

/-- Digit run to a natural number. -/
def digitsToNat (l : List Char) : Nat :=
  l.foldl (fun a c => a * 10 + (c.toNat - 48)) 0

/-- A conservative model of Python `float(s)` on strings: optional
surrounding whitespace, an optional sign, one or more digits, and an
optional fractional part.  Everything this parser accepts, Python
accepts with the same value; strings it rejects (such as exponent forms)
are treated as parse failures, which only widens the hypotheses of the
theorems below. -/
def parsePyFloat (s : String) : Option ℚ :=
  let l := ((s.data.dropWhile isPySpace).reverse.dropWhile isPySpace).reverse
  let signed : Int × List Char :=
    match l with
    | '-' :: t => (-1, t)
    | '+' :: t => (1, t)
    | t => (1, t)
  let ds := signed.2.takeWhile Char.isDigit
  let rest := signed.2.drop ds.length
  if ds.isEmpty then Option.none
  else
    match rest with
    | [] => some (mkRat (signed.1 * digitsToNat ds) 1)
    | '.' :: fs =>
        let fd := fs.takeWhile Char.isDigit
        if (fs.drop fd.length).isEmpty then
          some (mkRat (signed.1 * (digitsToNat ds * 10 ^ fd.length + digitsToNat fd))
            (10 ^ fd.length))
        else Option.none
    | _ => Option.none

/-- Python `float(v)` on a payload value: numbers pass through, booleans
coerce to 0 or 1, numeric strings parse, and everything else raises. -/
def pyFloat : PyVal → Except String ℚ
  | .num q => .ok q
  | .bool b => .ok (if b then 1 else 0)
  | .str s =>
      match parsePyFloat s with
      | some q => .ok q
      | Option.none => .error "ValueError: could not convert string to float"
  | _ => .error "TypeError: float() argument must be a string or a number"

/-- Python attribute access `v.get` requires a dictionary; on any other
truthy value the scorer raises AttributeError. -/
def asFlagsDict : PyVal → Except String (List (String × PyVal))
  | .dict d => .ok d
  | _ => .error "AttributeError: object has no attribute get"

namespace MoneyGuard

/-- From `risk_engine/moneyguard.py`: `PAYMENT_WEIGHTS`. -/
def PAYMENT_WEIGHTS : List (String × Nat) :=
  [("gift_card", 40), ("crypto", 35), ("wire", 25),
   ("western_union", 30), ("moneygram", 30), ("prepaid_card", 35)]

/-- From `risk_engine/moneyguard.py`: `IMPERSONATION_WEIGHTS`. -/
def IMPERSONATION_WEIGHTS : List (String × Nat) :=
  [("bank", 15), ("government", 15), ("tech_support", 15),
   ("medicare", 20), ("health_insurance", 20), ("contractor", 18),
   ("charity", 15)]

/-- From `risk_engine/moneyguard.py`: `SCAM_TYPE_WEIGHTS`. -/
def SCAM_TYPE_WEIGHTS : List (String × Nat) :=
  [("grandparent_scam", 30), ("family_emergency", 30), ("romance_scam", 28),
   ("lottery_scam", 35), ("sweepstakes_scam", 35), ("investment_scam", 32),
   ("charity_scam", 22), ("contractor_scam", 25), ("home_repair", 25),
   ("medicare_scam", 25), ("tech_support", 20)]

/-- The reason emitted by the large-amount rule. -/
def largeAmountReason : String :=
  "They contacted you first and the amount is large."

/-- One boolean flag check `flags.get(key)` by truthiness. -/
def flagOn (flags : List (String × PyVal)) (k : String) : Bool :=
  (pyGet flags k PyVal.none).truthy

/-- The ordered list of (weight, reason) contributions of
`moneyguard.assess`; the source increments the score and appends the
reason under one and the same condition, so the pairs are collected
together here, in source order. -/
def hitList (payment_method : String) (amount : ℚ) (did : Bool)
    (flags : List (String × PyVal)) (scam_type impersonation : String) :
    List (Nat × String) :=
  (match List.lookup payment_method PAYMENT_WEIGHTS with
   | some w => [(w, "High-risk payment method: " ++ underscoresToSpaces payment_method)]
   | Option.none => []) ++
  (if did && decide (amount > 500) then [(15, largeAmountReason)] else []) ++
  (if flagOn flags "asked_for_verification_code" then
     [(35, "They asked for a verification code.")] else []) ++
  (if flagOn flags "asked_for_remote_access" then
     [(30, "They asked for remote access.")] else []) ++
  (if flagOn flags "asked_to_keep_secret" then
     [(20, "They asked you to keep it secret.")] else []) ++
  (if flagOn flags "urgency_present" then
     [(15, "They created urgency or pressure.")] else []) ++
  (match List.lookup scam_type SCAM_TYPE_WEIGHTS with
   | some w => [(w, "Common scam pattern detected: " ++ underscoresToSpaces scam_type)]
   | Option.none => []) ++
  (if flagOn flags "upfront_payment_required" then
     [(25, "Upfront payment required (common in lottery/prize scams)")] else []) ++
  (if flagOn flags "wont_meet_in_person" then
     [(20, "They refuse to meet in person (common in romance scams)")] else []) ++
  (if flagOn flags "refuses_video_chat" then
     [(15, "They refuse video chat verification (romance scam red flag)")] else []) ++
  (if flagOn flags "guaranteed_return" && decide (amount > 1000) then
     [(28, "Guaranteed returns with large amount (investment scam indicator)")] else []) ++
  (if flagOn flags "prize_claim_fee" then
     [(30, "Fee required to claim prize (lottery/sweepstakes scam)")] else []) ++
  (if flagOn flags "emergency_family_member" then
     [(28, "Emergency involving family member (grandparent scam indicator)")] else []) ++
  (if flagOn flags "contractor_pressure" then
     [(22, "Contractor creating pressure (home repair scam)")] else []) ++
  (match List.lookup impersonation IMPERSONATION_WEIGHTS with
   | some w => [(w, "Possible " ++ underscoresToSpaces impersonation ++ " impersonation.")]
   | Option.none => [])

/-- From `risk_engine/moneyguard.py`: the fixed recommended actions. -/
def recommendedActions : List RecommendedAction :=
  [⟨"pause-payment", "Pause payment",
    "Stop and verify the request using a trusted channel."⟩,
   ⟨"call-bank", "Call your bank",
    "Use the number on your card to confirm if this request is legitimate."⟩,
   ⟨"no-otp", "Never share verification codes",
    "Banks and legitimate services will not ask for OTP codes or remote access."⟩]

/-- From `risk_engine/moneyguard.py`: the fixed safe script. -/
def safeScript : SafeScript :=
  ⟨"I need to verify this request independently before sending any money.",
   "I won\x27t proceed without verification. I\x27ll follow up after I confirm."⟩

/-- From `risk_engine/moneyguard.py`: `assess`.  The amount coercion
`float(payload.get("amount", 0) or 0)` and the attribute access on a
truthy non-dict `flags` value are the two statements that can raise; both
are modelled by `Except`. -/
def assess (payload : List (String × PyVal)) : Except String RiskResponse :=
  let payment_method := sLower (pyStr (pyGet payload "payment_method" (.str "")))
  match pyFloat (pyOr (pyGet payload "amount" (.num 0)) (.num 0)) with
  | .error e => .error e
  | .ok amount =>
    let did := (pyGet payload "did_they_contact_you_first" PyVal.none).truthy
    match asFlagsDict (pyOr (pyGet payload "flags" (.dict [])) (.dict [])) with
    | .error e => .error e
    | .ok flags =>
      let scam_type := sLower (pyStr (pyGet flags "scam_type" (.str "")))
      let impersonation := sLower (pyStr (pyGet flags "impersonation_type" (.str "none")))
      let hits := hitList payment_method amount did flags scam_type impersonation
      let reasons := hits.map (·.2)
      .ok (build_risk_response ((hits.map (·.1)).sum : Nat)
        (if reasons.isEmpty then ["No high-risk indicators detected."] else reasons)
        "Verify the recipient using a trusted number or in-person contact."
        recommendedActions (some safeScript)
        [("amount", PyVal.num amount),
         ("payment_method", PyVal.str payment_method),
         ("impersonation_type", PyVal.str impersonation),
         ("scam_type", PyVal.str (if scam_type.data.isEmpty then "none" else scam_type))])

end MoneyGuard

namespace InboxGuard

/-- From `risk_engine/inboxguard.py`: the keyword tables, in source order. -/
def URGENCY_TERMS : List String :=
  ["immediately", "final notice", "today", "urgent", "asap", "emergency",
   "act now", "limited time"]

def PAYMENT_TERMS : List String :=
  ["gift card", "wire", "crypto", "payment", "invoice", "western union",
   "moneygram", "bitcoin", "ethereum"]

def OTP_TERMS : List String :=
  ["code", "otp", "verification", "verify", "one-time code", "verification code"]

def IMPERSONATION_TERMS : List String :=
  ["irs", "usps", "fedex", "bank", "paypal", "microsoft", "medicare",
   "social security", "ssa", "treasury", "fbi", "police", "sheriff"]

def GRANDPARENT_SCAM_TERMS : List String :=
  ["grandchild", "grandson", "granddaughter", "in jail", "hospital",
   "car accident", "bail money", "lawyer", "attorney"]

def ROMANCE_SCAM_TERMS : List String :=
  ["my love", "sweetheart", "darling", "emergency money", "travel expenses",
   "visa fees", "customs", "stranded"]

def LOTTERY_SCAM_TERMS : List String :=
  ["you\x27ve won", "prize winner", "lottery", "sweepstakes", "jackpot",
   "claim your prize", "processing fee", "tax payment", "upfront payment"]

def INVESTMENT_SCAM_TERMS : List String :=
  ["guaranteed return", "risk-free", "once in a lifetime",
   "exclusive opportunity", "limited offer", "act fast", "get rich quick"]

def CHARITY_SCAM_TERMS : List String :=
  ["disaster relief", "hurricane", "flood", "wildfire", "donate now",
   "help victims", "urgent donation", "crisis fund"]

def CONTRACTOR_SCAM_TERMS : List String :=
  ["damage inspection", "roof repair", "driveway", "siding", "cash discount",
   "today only", "leftover materials"]

def MEDICARE_SCAM_TERMS : List String :=
  ["medicare number", "benefits verification", "new card", "medicare id",
   "coverage issue"]

def URL_SHORTENERS : List String :=
  ["bit.ly", "tinyurl.com", "t.co", "goo.gl", "ow.ly"]

/-- Characters allowed in a URL scheme after the leading letter
(`scheme_chars` of `urllib.parse`). -/
def schemeChar (c : Char) : Bool :=
  c.isAlpha || c.isDigit || c = '+' || c = '-' || c = '.'

/-- Model of `urllib.parse.urlparse(url).netloc` (Python 3.10+): the
input is stripped of leading control-or-space characters, tab/CR/LF are
removed, an optional scheme prefix is split off, and when the remainder
starts with a double slash the authority runs up to the first of the
three delimiters.  Authorities containing square brackets undergo
bracketed-host validation in Python, which raises for everything the
engine would meet there; they are conservatively modelled as a parse
failure (`Option.none` models a ValueError from `urlparse`). -/
def netlocOf (url : String) : Option String :=
  let l0 := url.data.dropWhile (fun c => c.toNat ≤ 0x20)
  let l := l0.filter (fun c => !(c = '\t' || c = '\x0d' || c = '\n'))
  let pre := l.takeWhile (fun c => c ≠ ':')
  let rest :=
    if pre.length < l.length && !pre.isEmpty &&
        (match pre with
         | c :: cs => c.toNat ≤ 0x7f && c.isAlpha && cs.all schemeChar
         | [] => false) then
      l.drop (pre.length + 1)
    else l
  match rest with
  | '/' :: '/' :: r =>
      let netl := r.takeWhile (fun c => !(c = '/' || c = '?' || c = '#'))
      if netl.contains '[' || netl.contains ']' then Option.none
      else some ⟨netl⟩
  | _ => some ""

/-- Decides whether the regex `d+.d+.d+.d+` (digit runs joined by
literal dots) matches at the head of `l`. -/
def matchIpAt (l : List Char) : Bool :=
  let d1 := l.takeWhile Char.isDigit
  if d1.isEmpty then false
  else
    match l.drop d1.length with
    | '.' :: r1 =>
        let d2 := r1.takeWhile Char.isDigit
        if d2.isEmpty then false
        else
          match r1.drop d2.length with
          | '.' :: r2 =>
              let d3 := r2.takeWhile Char.isDigit
              if d3.isEmpty then false
              else
                match r2.drop d3.length with
                | '.' :: r3 => !(r3.takeWhile Char.isDigit).isEmpty
                | _ => false
          | _ => false
    | _ => false

/-- Decides whether `re.search` finds the dotted-quad pattern anywhere. -/
def ipSearch : List Char → Bool
  | [] => false
  | c :: t => matchIpAt (c :: t) || ipSearch t

/-- The sensitive path keywords checked against the whole URL. -/
def SENSITIVE_KEYWORDS : List String :=
  ["login", "verify", "secure", "account", "update"]

/-- The suffix of the domain after its last dot (`domain.split(".")[-1]`). -/
def tldLen (domain : List Char) : Nat :=
  (domain.reverse.takeWhile (fun c => c ≠ '.')).length

/-- From `risk_engine/inboxguard.py`: `_url_flags`.  The seven
independent tests, preceded by the early return for an empty authority;
errors model the ValueError `urlparse` can raise. -/
def url_flags (url : String) : Except String (List String) :=
  match netlocOf url with
  | Option.none => .error "ValueError: Invalid IPv6 URL"
  | some netloc =>
    let domain := sLower netloc
    if domain.data.isEmpty then .ok ["No domain found"]
    else
      .ok
        ((if URL_SHORTENERS.contains domain then ["URL shortener used"] else []) ++
         (if ipSearch domain.data then ["IP address used in URL"] else []) ++
         (if domain.data.count '-' ≥ 2 then ["Multiple hyphens in domain"] else []) ++
         (if domain.data.count '.' ≥ 3 then ["Long subdomain chain"] else []) ++
         (if SENSITIVE_KEYWORDS.any (fun k => strContains (sLower url) k) then
            ["Contains sensitive action keywords"] else []) ++
         (if strContains domain "xn--" then ["Punycode domain detected"] else []) ++
         (if tldLen domain.data > 3 then ["Unusual TLD length"] else []))

/-- Counts how many of the seven URL tests fire (the early-return
"No domain found" case is not one of them). -/
def sevenTestCount (url : String) : Nat :=
  match url_flags url with
  | .ok flags =>
      (flags.filter (fun f => f ≠ "No domain found")).length
  | .error _ => 0

/-- From `risk_engine/inboxguard.py`: `analyze_url`.  The score is
fifteen points per flag, computed before the empty flag list is replaced
by the neutral sentinel. -/
def analyze_url (url : String) : Except String RiskResponse :=
  match url_flags url with
  | .error e => .error e
  | .ok flags0 =>
    let score : Nat := 15 * flags0.length
    let flags := if flags0.isEmpty then ["No obvious URL red flags detected."] else flags0
    let domain := sLower ((netlocOf url).getD "")
    .ok (build_risk_response score flags
      "Avoid clicking. Validate the URL through official channels."
      [⟨"manual", "Open manually",
        "Type the known URL into your browser instead of clicking."⟩,
       ⟨"verify-sender", "Verify the sender",
        "Confirm the message with the organization using an official contact method."⟩]
      Option.none
      [("domain", PyVal.str domain),
       ("looks_like_spoof",
        PyVal.bool (flags.any (fun f => strContains f "Punycode" || strContains f "hyphens"))),
       ("url_red_flags", PyVal.list (flags.map PyVal.str))])

/-- Tries to match the regex `https?://S+` (S+ meaning one or more
non-whitespace characters, greedily) at the head of the list, returning
the match and the remainder after it. -/
def matchUrlAt (l : List Char) : Option (List Char × List Char) :=
  let tryScheme (scheme : List Char) : Option (List Char × List Char) :=
    if leadsWith scheme l then
      let after := l.drop scheme.length
      let body := after.takeWhile (fun c => !isPySpace c)
      if body.isEmpty then Option.none
      else some (scheme ++ body, after.drop body.length)
    else Option.none
  match tryScheme "https://".data with
  | some r => some r
  | Option.none => tryScheme "http://".data

/-- Left-to-right non-overlapping scan of `re.findall`; each step either
emits a match (consuming at least eight characters) or advances by one,
so fuel equal to the length of the input is sufficient. -/
def findUrlsAux : Nat → List Char → List String
  | 0, _ => []
  | _ + 1, [] => []
  | fuel + 1, c :: t =>
      match matchUrlAt (c :: t) with
      | some (m, after) => (⟨m⟩ : String) :: findUrlsAux fuel after
      | Option.none => findUrlsAux fuel t

/-- From `risk_engine/inboxguard.py`: `_extract_urls`. -/
def extract_urls (s : String) : List String := findUrlsAux s.data.length s.data

/-- Runs `_url_flags` over every extracted URL, concatenating the flags;
the first parse failure propagates, as the exception does in Python. -/
def collectUrlFlags : List String → Except String (List String)
  | [] => .ok []
  | u :: t =>
      match url_flags u with
      | .error e => .error e
      | .ok f =>
          match collectUrlFlags t with
          | .error e => .error e
          | .ok rest => .ok (f ++ rest)

/-- The ordered (weight, reason) contributions of `analyze_text` on the
lower-cased text (URL handling is appended separately). -/
def textHits (lower : String) : List (Nat × String) :=
  (if URGENCY_TERMS.any (fun t => strContains lower t) then
     [(20, "Urgency language detected")] else []) ++
  (if PAYMENT_TERMS.any (fun t => strContains lower t) then
     [(20, "Payment request detected")] else []) ++
  (if OTP_TERMS.any (fun t => strContains lower t) then
     [(25, "Verification code request detected")] else []) ++
  (if strContains lower "attachment" then [(10, "Attachment mentioned")] else []) ++
  (if !(IMPERSONATION_TERMS.filter (fun t => strContains lower t)).isEmpty then
     [(20, "Impersonation terms detected")] else []) ++
  (if GRANDPARENT_SCAM_TERMS.any (fun t => strContains lower t) then
     [(25, "Grandparent/Family Emergency scam indicators detected")] else []) ++
  (if ROMANCE_SCAM_TERMS.any (fun t => strContains lower t) then
     [(23, "Romance scam indicators detected")] else []) ++
  (if LOTTERY_SCAM_TERMS.any (fun t => strContains lower t) then
     [(28, "Lottery/Sweepstakes scam indicators detected")] else []) ++
  (if INVESTMENT_SCAM_TERMS.any (fun t => strContains lower t) then
     [(25, "Investment scam indicators detected")] else []) ++
  (if CHARITY_SCAM_TERMS.any (fun t => strContains lower t) then
     [(20, "Charity scam indicators detected")] else []) ++
  (if CONTRACTOR_SCAM_TERMS.any (fun t => strContains lower t) then
     [(22, "Contractor scam indicators detected")] else []) ++
  (if MEDICARE_SCAM_TERMS.any (fun t => strContains lower t) then
     [(24, "Medicare scam indicators detected")] else [])

/-- From `risk_engine/inboxguard.py`: `analyze_text`.  The channel is
kept as a raw payload value because it is only stored in the metadata. -/
def analyze_text (text : String) (channel : PyVal) : Except String RiskResponse :=
  let lower := sLower text
  let hits := textHits lower
  let entities := IMPERSONATION_TERMS.filter (fun t => strContains lower t)
  let extracted := extract_urls text
  match collectUrlFlags extracted with
  | .error e => .error e
  | .ok urlFlags =>
    let hits2 := hits ++ (if !urlFlags.isEmpty then [(15, "Suspicious URLs detected")] else [])
    let reasons := hits2.map (·.2)
    .ok (build_risk_response ((hits2.map (·.1)).sum : Nat)
      (if reasons.isEmpty then ["No obvious red flags detected."] else reasons)
      "Avoid responding until you verify the sender through official channels."
      [⟨"dont-click", "Do not click",
        "Avoid clicking links or opening attachments in the message."⟩,
       ⟨"official-app", "Open the official app/site",
        "Navigate to the service using a trusted app or bookmarked site."⟩,
       ⟨"report", "Report as junk",
        "Use your carrier or email provider reporting tools."⟩]
      Option.none
      [("extracted_urls", PyVal.list (extracted.map PyVal.str)),
       ("detected_entities", PyVal.list (entities.map PyVal.str)),
       ("red_flags", PyVal.list (reasons.map PyVal.str)),
       ("channel", channel)])

end InboxGuard

namespace IdentityWatch

/-- From `risk_engine/identitywatch.py`: `SIGNAL_WEIGHTS`, in insertion
order (the loop iterates the dictionary in this order). -/
def SIGNAL_WEIGHTS : List (String × Nat) :=
  [("password_reset_unknown", 25),
   ("account_opened", 40),
   ("suspicious_inquiry", 40),
   ("reused_passwords", 15),
   ("clicked_suspicious_link", 20),
   ("ssn_requested_unexpectedly", 25)]

/-- From `risk_engine/identitywatch.py`: `assess`.  The input is the
signal map; a key contributes its weight when its value is truthy. -/
def assess (signals : List (String × PyVal)) : RiskResponse :=
  let hits := SIGNAL_WEIGHTS.filter (fun kw => (pyGet signals kw.1 PyVal.none).truthy)
  let reasons := hits.map (fun kw => underscoresToSpaces kw.1)
  build_risk_response ((hits.map (·.2)).sum : Nat)
    (if reasons.isEmpty then ["No high-risk identity signals selected."] else reasons)
    "Start with a credit freeze and password reset if any suspicion remains."
    [⟨"freeze-credit", "Freeze your credit",
      "Place a free credit freeze with the major bureaus."⟩,
     ⟨"enable-2fa", "Enable 2FA",
      "Turn on multi-factor authentication for key accounts."⟩,
     ⟨"change-passwords", "Change passwords",
      "Update passwords on critical accounts and use a manager."⟩,
     ⟨"check-credit", "Check your credit report",
      "Review recent inquiries and accounts you don\x27t recognize."⟩]
    (some ⟨"I\x27m calling to report potential fraud and request next steps.",
      "Please note this as suspected identity misuse and escalate if needed."⟩)
    [("suggested_freeze_steps", PyVal.list
       [PyVal.str "Freeze credit with Equifax, Experian, and TransUnion.",
        PyVal.str "Create a PIN for lifting the freeze later."]),
     ("suggested_password_steps", PyVal.list
       [PyVal.str "Change passwords starting with email and banking.",
        PyVal.str "Enable passkeys or authenticator apps where possible."]),
     ("monitoring_steps", PyVal.list
       [PyVal.str "Set alerts for new credit inquiries.",
        PyVal.str "Review bank statements weekly for unusual activity."])]

end IdentityWatch

/-- Abstract model of the token layer used by `storage/encryption.py`:
the composition of `Fernet.encrypt` with URL-safe base64 wrapping
(`enc`), and its inverse `base64-decode then Fernet.decrypt` (`dec`,
returning nothing when the input is not a well-formed token for the
key).  The three fields are the contracts the libraries document: a
token decrypts back to its plaintext, decryption succeeds only on
tokens that the deterministic idealisation of encryption produces, and
tokens are never the empty string. -/
structure Cipher where
  enc : String → String
  dec : String → Option String
  dec_enc : ∀ s, dec (enc s) = some s
  enc_of_dec : ∀ t s, dec t = some s → t = enc s
  enc_ne_empty : ∀ s, enc s ≠ ""

/-- From `storage/encryption.py`: `DataEncryption`, holding the cipher
suite and the `ENABLE_DATA_ENCRYPTION` switch. -/
structure DataEncryption where
  cipher : Cipher
  enabled : Bool

/-- From `storage/encryption.py`: `DataEncryption.encrypt`.  Disabled
encryption and empty input pass through; the try/except never fires for
a valid key, so the token branch is total. -/
def DataEncryption.encrypt (e : DataEncryption) (data : String) : String :=
  if !e.enabled || data.data.isEmpty then data
  else e.cipher.enc data

/-- From `storage/encryption.py`: `DataEncryption.decrypt`.  Disabled
encryption and empty input pass through; a failed base64 decode or
Fernet decrypt is caught and the input is returned unchanged
(backward-compatibility branch). -/
def DataEncryption.decrypt (e : DataEncryption) (encrypted_data : String) : String :=
  if !e.enabled || encrypted_data.data.isEmpty then encrypted_data
  else
    match e.cipher.dec encrypted_data with
    | some plain => plain
    | Option.none => encrypted_data

/-- A concrete witness instance of the cipher contract: tokens are the
plaintext tagged with a leading marker character. -/
def toyCipher : Cipher where
  enc s := ⟨'E' :: s.data⟩
  dec t :=
    match t.data with
    | 'E' :: rest => some ⟨rest⟩
    | _ => Option.none
  dec_enc s := by cases s; rfl
  enc_of_dec t s h := by
    cases t with
    | mk data =>
      cases data with
      | nil => simp at h
      | cons c rest =>
        by_cases hc : c = 'E'
        · subst hc
          simp only [Option.some.injEq] at h
          subst h
          rfl
        · simp only at h
          split at h
          · rename_i heq
            cases heq
            simp_all
          · cases h
  enc_ne_empty s := by
    intro h
    have := congrArg String.data h
    simp at this

/-- The toy data-encryption handle with encryption enabled. -/
def toyEncryption : DataEncryption := ⟨toyCipher, true⟩

namespace Storage

/-- From `backend/models.py`: `EventIn`.  Timestamps are integers
counting seconds. -/
structure EventIn where
  type : String
  payload : List (String × PyVal)
  timestamp : Int

/-- From `backend/models.py`: `EventOut`. -/
structure EventOut where
  id : String
  type : String
  payload : List (String × PyVal)
  timestamp : Int

/-- From `storage/memory.py`: `SessionRecord`.  `last_accessed_at` is
always set (`__post_init__` initialises it to `created_at`), so it is
not optional here. -/
structure SessionRecord where
  session_id : String
  module : String
  user_id : String
  device_id : String
  created_at : Int
  events : List EventOut
  last_risk : Option RiskResponse
  last_accessed_at : Int

/-- From `storage/memory.py`: the mutable state of `MemoryStore` with
the retention knobs the claims exercise.  `session_ttl_hours` is the
constructor argument (or `SESSION_TTL_HOURS`). -/
structure MemoryStore where
  sessions : List (String × SessionRecord)
  encryption : DataEncryption
  session_ttl_hours : Int

/-- Replaces the record stored under `sid`, leaving other keys alone
(a Python dict entry update). -/
def updateSession (sessions : List (String × SessionRecord)) (sid : String)
    (f : SessionRecord → SessionRecord) : List (String × SessionRecord) :=
  sessions.map (fun kr => if kr.1 = sid then (kr.1, f kr.2) else kr)

/-- From `storage/memory.py`: the sensitive payload keys of
`_encrypt_event_payload` and `_decrypt_event_payload`. -/
def sensitiveKeys : List String :=
  ["email", "emails", "phone", "phones", "phone_number",
   "phone_number_formatted", "caller_id", "from", "to",
   "user_id", "device_id", "account_number", "ssn"]

/-- Applies `f` to a payload value the way the store does: strings are
transformed, lists transform their string elements, anything else is
left alone. -/
def mapSensitiveValue (f : String → String) : PyVal → PyVal
  | .str s => .str (f s)
  | .list l => .list (l.map (fun item =>
      match item with
      | .str s => .str (f s)
      | other => other))
  | other => other

/-- From `storage/memory.py`: `_encrypt_event_payload` (entry-wise form
of the key loop; payload dictionaries have unique keys). -/
def encryptEventPayload (e : DataEncryption) (payload : List (String × PyVal)) :
    List (String × PyVal) :=
  payload.map (fun kv =>
    if sensitiveKeys.contains kv.1 then (kv.1, mapSensitiveValue e.encrypt kv.2)
    else kv)

/-- From `storage/memory.py`: `_decrypt_event_payload`. -/
def decryptEventPayload (e : DataEncryption) (payload : List (String × PyVal)) :
    List (String × PyVal) :=
  payload.map (fun kv =>
    if sensitiveKeys.contains kv.1 then (kv.1, mapSensitiveValue e.decrypt kv.2)
    else kv)

/-- From `storage/memory.py`: `_get_decrypted_record`.  The identifiers
are decrypted; the `events` field is passed through as stored (in
Python it is even the same list object). -/
def getDecryptedRecord (e : DataEncryption) (record : SessionRecord) : SessionRecord :=
  { record with
      user_id := e.decrypt record.user_id
      device_id := e.decrypt record.device_id }

/-- From `storage/memory.py`: `get_session`.  `now` stands for
`datetime.now(timezone.utc)`.  On a hit the stored record gets
`last_accessed_at := now` and a decrypted view of it is returned; on a
miss the store is untouched. -/
def get_session (st : MemoryStore) (now : Int) (session_id : String) :
    Option SessionRecord × MemoryStore :=
  match List.lookup session_id st.sessions with
  | some record =>
      let touched := { record with last_accessed_at := now }
      (some (getDecryptedRecord st.encryption touched),
       { st with sessions := updateSession st.sessions session_id (fun _ => touched) })
  | Option.none => (Option.none, st)

/-- From `storage/memory.py`: `append_event`.  `new_id` stands for the
`uuid4` the store generates for the event. -/
def append_event (st : MemoryStore) (session_id : String) (event : EventIn)
    (new_id : String) : Option EventOut × MemoryStore :=
  match List.lookup session_id st.sessions with
  | Option.none => (Option.none, st)
  | some _ =>
      let event_out : EventOut :=
        { id := new_id
          type := event.type
          payload := encryptEventPayload st.encryption event.payload
          timestamp := event.timestamp }
      (some event_out,
       { st with sessions := (updateSession st.sessions session_id
           (fun r => { r with events := r.events ++ [event_out] })) })

/-- From `storage/memory.py`: `update_last_risk` (no-op when the id is
unknown). -/
def update_last_risk (st : MemoryStore) (session_id : String) (risk : RiskResponse) :
    MemoryStore :=
  { st with sessions := (updateSession st.sessions session_id
      (fun r => { r with last_risk := some risk })) }

/-- From `storage/memory.py`: `_is_session_expired`: with a positive
TTL, a session is expired when `now` is strictly past
`last_accessed_at + timedelta(hours=ttl)` (seconds: `ttl * 3600`). -/
def isSessionExpired (ttl : Int) (now : Int) (record : SessionRecord) : Bool :=
  if ttl ≤ 0 then false
  else decide (now > record.last_accessed_at + ttl * 3600)

/-- From `storage/memory.py`: `cleanup_expired_sessions`, returning the
updated store and the number of sessions removed. -/
def cleanup_expired_sessions (st : MemoryStore) (now : Int) : MemoryStore × Nat :=
  if st.session_ttl_hours ≤ 0 then (st, 0)
  else
    let expired := st.sessions.filter
      (fun kr => isSessionExpired st.session_ttl_hours now kr.2)
    ({ st with sessions := (st.sessions.filter
        (fun kr => !isSessionExpired st.session_ttl_hours now kr.2)) },
     expired.length)

end Storage

namespace Main

/-- A payload field that must be a string before it can be handed to a
text-processing scorer; any other value would raise inside the scorer. -/
def getStrField : PyVal → Except String String
  | .str s => .ok s
  | _ => .error "TypeError: expected str"

/-- From `backend/main.py`: `_assess_session_risk`.  Selects the
module-appropriate evidence from the event log (decrypting payloads
through `_decrypt_event_payload`, except for the identitywatch branch,
which uses the raw payload) and invokes the corresponding scorer.  The
callguard branch reaches the rule-based scorer (the authoritative
behaviour; the optional LLM overlay is not modelled).  Errors model the
exceptions the handler converts into a 500 response, including the
no-evidence ValueError of the inboxguard branch. -/
def assessSessionRisk (e : DataEncryption) (module : String)
    (events : List Storage.EventOut) : Except String RiskResponse :=
  if module = "callguard" then
    let signals := (events.filter (fun ev => ev.type = "signal")).map
      (fun ev => pyGet (Storage.decryptEventPayload e ev.payload) "signal_key" PyVal.none)
    .ok (CallGuard.assessRule (signals.filter PyVal.truthy))
  else if module = "moneyguard" then
    match events.reverse.find? (fun ev => ev.type = "assess") with
    | some ev => MoneyGuard.assess (Storage.decryptEventPayload e ev.payload)
    | Option.none => MoneyGuard.assess []
  else if module = "inboxguard" then
    match events.reverse.find? (fun ev => ev.type = "text" || ev.type = "url") with
    | some ev =>
        if ev.type = "text" then
          let p := Storage.decryptEventPayload e ev.payload
          match getStrField (pyGet p "text" (.str "")) with
          | .error err => .error err
          | .ok text => InboxGuard.analyze_text text (pyGet p "channel" (.str "other"))
        else
          let p := Storage.decryptEventPayload e ev.payload
          match getStrField (pyGet p "url" (.str "")) with
          | .error err => .error err
          | .ok url => InboxGuard.analyze_url url
    | Option.none =>
        .error "ValueError: No text or URL event found in session for InboxGuard analysis"
  else if module = "identitywatch" then
    match events.reverse.find? (fun ev => ev.type = "signals") with
    | some ev => .ok (IdentityWatch.assess ev.payload)
    | Option.none => .ok (IdentityWatch.assess [])
  else
    .ok (CallGuard.assessRule [])

/-- The error kinds the `append_event` route can surface. -/
inductive ApiError where
  | notFound
  | internal (msg : String)

/-- From `backend/main.py`: the `append_event` route handler.  It reads
the session view (which refreshes `last_accessed_at`), appends the
event, assesses the risk, stores it via `update_last_risk` and returns
it.  In Python the captured view shares its `events` list with the
stored record, so after `store.append_event` the dispatcher sees the
log including the new event; the model therefore reads the events back
from the post-append store. -/
def appendEventHandler (st : Storage.MemoryStore) (now : Int) (session_id : String)
    (event : Storage.EventIn) (new_id : String) :
    Except ApiError (RiskResponse × Storage.MemoryStore) :=
  match Storage.get_session st now session_id with
  | (Option.none, _) => .error .notFound
  | (some view, st1) =>
      let st2 := (Storage.append_event st1 session_id event new_id).2
      let events :=
        match List.lookup session_id st2.sessions with
        | some r => r.events
        | Option.none => []
      match assessSessionRisk st2.encryption view.module events with
      | .error e => .error (.internal e)
      | .ok risk => .ok (risk, Storage.update_last_risk st2 session_id risk)

end Main

/-- A placeholder response used only by the total extraction helpers
below. -/
def dfltRisk : RiskResponse :=
  ⟨0, "low", [], "", [], Option.none, []⟩

/-- Total extraction of the response from a scorer result. -/
def riskOfExc (x : Except String RiskResponse) : RiskResponse :=
  match x with
  | .ok r => r
  | .error _ => dfltRisk

/-- Total extraction of the response from a handler result. -/
def riskOfRes (x : Except Main.ApiError (RiskResponse × Storage.MemoryStore)) :
    RiskResponse :=
  match x with
  | .ok (r, _) => r
  | .error _ => dfltRisk

/-- Total extraction of the store from a handler result. -/
def stateOfRes (x : Except Main.ApiError (RiskResponse × Storage.MemoryStore))
    (dflt : Storage.MemoryStore) : Storage.MemoryStore :=
  match x with
  | .ok (_, s) => s
  | .error _ => dflt

/-- Score projection of a handler result. -/
def scoreOfRes (x : Except Main.ApiError (RiskResponse × Storage.MemoryStore)) :
    Option Int :=
  match x with
  | .ok (r, _) => some r.score
  | .error _ => Option.none

/-- Level projection of a handler result. -/
def levelOfRes (x : Except Main.ApiError (RiskResponse × Storage.MemoryStore)) :
    Option String :=
  match x with
  | .ok (r, _) => some r.level
  | .error _ => Option.none

/-- A fresh callguard session, as `start_session` stores it under the
toy cipher (identifiers encrypted, `last_accessed_at = created_at`). -/
def rec0 : Storage.SessionRecord :=
  { session_id := "s1", module := "callguard",
    user_id := toyCipher.enc "u", device_id := toyCipher.enc "d",
    created_at := 0, events := [], last_risk := Option.none,
    last_accessed_at := 0 }

/-- A store holding only `rec0`. -/
def st0 : Storage.MemoryStore :=
  { sessions := [("s1", rec0)], encryption := toyEncryption,
    session_ttl_hours := 24 }

/-- First appended event of the session-lifecycle scenario. -/
def ev1 : Storage.EventIn :=
  { type := "signal",
    payload := [("signal_key", PyVal.str "verification_code_request")],
    timestamp := 1 }

/-- Second appended event of the session-lifecycle scenario. -/
def ev2 : Storage.EventIn :=
  { type := "signal",
    payload := [("signal_key", PyVal.str "remote_access_request")],
    timestamp := 2 }

/-- Result of the first append of the scenario. -/
def res1 : Except Main.ApiError (RiskResponse × Storage.MemoryStore) :=
  Main.appendEventHandler st0 1 "s1" ev1 "e1"

/-- Store state after the first append. -/
def st1 : Storage.MemoryStore := stateOfRes res1 st0

/-- Result of the second append of the scenario. -/
def res2 : Except Main.ApiError (RiskResponse × Storage.MemoryStore) :=
  Main.appendEventHandler st1 2 "s1" ev2 "e2"

/-- A stored session whose event payload has an encrypted sensitive
field, for exercising `get_session`. -/
def rec3 : Storage.SessionRecord :=
  { session_id := "s3", module := "callguard",
    user_id := toyCipher.enc "u", device_id := toyCipher.enc "d",
    created_at := 0,
    events := [{ id := "e9", type := "signal",
                 payload := [("email", PyVal.str (toyCipher.enc "bob"))],
                 timestamp := 0 }],
    last_risk := Option.none, last_accessed_at := 0 }

/-- A store holding only `rec3`. -/
def st3 : Storage.MemoryStore :=
  { sessions := [("s3", rec3)], encryption := toyEncryption,
    session_ttl_hours := 24 }

/-- A session idle for 61 minutes at sweep time 10000 (seconds). -/
def rec61 : Storage.SessionRecord :=
  { session_id := "old", module := "callguard",
    user_id := toyCipher.enc "u", device_id := toyCipher.enc "d",
    created_at := 6340, events := [], last_risk := Option.none,
    last_accessed_at := 6340 }

/-- A session idle for 59 minutes at sweep time 10000 (seconds). -/
def rec59 : Storage.SessionRecord :=
  { session_id := "fresh", module := "callguard",
    user_id := toyCipher.enc "u", device_id := toyCipher.enc "d",
    created_at := 6460, events := [], last_risk := Option.none,
    last_accessed_at := 6460 }

/-- A store with TTL one hour holding the 61-minute-idle and the
59-minute-idle sessions. -/
def stW : Storage.MemoryStore :=
  { sessions := [("old", rec61), ("fresh", rec59)],
    encryption := toyEncryption, session_ttl_hours := 1 }

/-- The same sessions with TTL zero (expiry disabled). -/
def stZ : Storage.MemoryStore :=
  { sessions := [("old", rec61), ("fresh", rec59)],
    encryption := toyEncryption, session_ttl_hours := 0 }

/-- An event carrying one sensitive and one ordinary payload field. -/
def evS : Storage.EventIn :=
  { type := "signal",
    payload := [("email", PyVal.str "bob"), ("note", PyVal.str "x")],
    timestamp := 3 }

/-- MoneyGuard payload whose amount is a non-numeric string. -/
def mgAbc : List (String × PyVal) := [("amount", PyVal.str "abc")]

/-- MoneyGuard payload with a negative amount and first contact. -/
def mgNeg : List (String × PyVal) :=
  [("amount", PyVal.num (-100)), ("did_they_contact_you_first", PyVal.bool true)]

/-- The response `assess` computes for `mgNeg`. -/
def mgNegR : RiskResponse := riskOfExc (MoneyGuard.assess mgNeg)

/-- MoneyGuard payload used by the bounds witness. -/
def mgP1 : List (String × PyVal) :=
  [("amount", PyVal.num 800), ("payment_method", PyVal.str "gift_card"),
   ("did_they_contact_you_first", PyVal.bool true),
   ("flags", PyVal.dict
     [("asked_for_verification_code", PyVal.bool true),
      ("asked_to_keep_secret", PyVal.bool true),
      ("urgency_present", PyVal.bool true),
      ("impersonation_type", PyVal.str "bank")])]

/-- The response `assess` computes for `mgP1`. -/
def mgP1R : RiskResponse := riskOfExc (MoneyGuard.assess mgP1)

/-- The response of `analyze_text` on the phishing-text scenario. -/
def textR : RiskResponse :=
  riskOfExc (InboxGuard.analyze_text
    "Final notice: verify your account immediately at https://bit.ly/fake-login"
    (PyVal.str "sms"))

/-- The response of `analyze_url` on the spoof-URL scenario. -/
def urlSpoofR : RiskResponse :=
  riskOfExc (InboxGuard.analyze_url "http://xn--paypa1-login.example.com/verify")

/-- The response of `analyze_url` on a clean URL. -/
def urlCleanR : RiskResponse :=
  riskOfExc (InboxGuard.analyze_url "https://example.com")

/-- The response of `analyze_url` on a shortener URL with a sensitive
path keyword. -/
def urlShortR : RiskResponse :=
  riskOfExc (InboxGuard.analyze_url "http://bit.ly/login")

/-- The largest table weight among a list of signals (zero when no
signal is known). -/
def CallGuard.maxWeight (signals : List String) : Nat :=
  (signals.map CallGuard.weightOf).foldr max 0

lemma score_to_level_clamp (s : Int) :
    score_to_level (clamp_score s) = score_to_level s := by
  unfold score_to_level clamp_score
  rcases le_total s 0 with h | h
  · rcases le_total 100 s with h2 | h2 <;> split_ifs <;> first | rfl | omega
  · rcases le_total 100 s with h2 | h2 <;> split_ifs <;> first | rfl | omega

lemma build_risk_response_wellLeveled (score : Int) (reasons : List String)
    (next_action : String) (recommended_actions : List RecommendedAction)
    (safe_script : Option SafeScript) (metadata : List (String × PyVal)) :
    WellLeveled (build_risk_response score reasons next_action
      recommended_actions safe_script metadata) := by
  unfold WellLeveled build_risk_response
  refine ⟨?_, ?_, ?_⟩
  · show (0 : Int) ≤ clamp_score score
    unfold clamp_score; omega
  · show clamp_score score ≤ 100
    unfold clamp_score; omega
  · exact (score_to_level_clamp score).symm

lemma ruleBased_wellLeveled (signals : List String) :
    WellLeveled (CallGuard.ruleBased signals) := by
  unfold CallGuard.ruleBased
  exact build_risk_response_wellLeveled _ _ _ _ _ _

lemma assessRule_wellLeveled (signals : List PyVal) :
    WellLeveled (CallGuard.assessRule signals) :=
  ruleBased_wellLeveled _

lemma moneyguard_assess_wellLeveled (payload : List (String × PyVal))
    (r : RiskResponse) (h : MoneyGuard.assess payload = .ok r) :
    WellLeveled r := by
  unfold MoneyGuard.assess at h
  split at h
  · exact absurd h (by simp)
  · split at h
    · exact absurd h (by simp)
    · simp only [Except.ok.injEq] at h
      subst h
      exact build_risk_response_wellLeveled _ _ _ _ _ _

lemma analyze_text_wellLeveled (text : String) (channel : PyVal)
    (r : RiskResponse) (h : InboxGuard.analyze_text text channel = .ok r) :
    WellLeveled r := by
  unfold InboxGuard.analyze_text at h
  dsimp only at h
  split at h
  · exact absurd h (by simp)
  · simp only [Except.ok.injEq] at h
    subst h
    exact build_risk_response_wellLeveled _ _ _ _ _ _

lemma analyze_url_wellLeveled (url : String)
    (r : RiskResponse) (h : InboxGuard.analyze_url url = .ok r) :
    WellLeveled r := by
  unfold InboxGuard.analyze_url at h
  split at h
  · exact absurd h (by simp)
  · simp only [Except.ok.injEq] at h
    subst h
    exact build_risk_response_wellLeveled _ _ _ _ _ _

lemma identitywatch_assess_wellLeveled (signals : List (String × PyVal)) :
    WellLeveled (IdentityWatch.assess signals) := by
  unfold IdentityWatch.assess
  exact build_risk_response_wellLeveled _ _ _ _ _ _

/-- C1: every scorer invocation (the callguard rule path,
moneyguard.assess, inboxguard.analyze_text, inboxguard.analyze_url,
identitywatch.assess) returns a response whose score lies in [0, 100]
and whose level equals the threshold rule applied to the returned
clamped score (high iff at least 70, medium iff in [35, 70), low below
35); deriving the level from the raw pre-clamp sum in
`build_risk_response` makes no difference because the threshold rule
commutes with clamping. -/
theorem c1_scorer_bounds_and_levels :
    (∀ signals : List PyVal, WellLeveled (CallGuard.assessRule signals)) ∧
    (∀ payload r, MoneyGuard.assess payload = .ok r → WellLeveled r) ∧
    (∀ text channel r, InboxGuard.analyze_text text channel = .ok r → WellLeveled r) ∧
    (∀ url r, InboxGuard.analyze_url url = .ok r → WellLeveled r) ∧
    (∀ signals, WellLeveled (IdentityWatch.assess signals)) :=
  ⟨assessRule_wellLeveled, moneyguard_assess_wellLeveled,
   analyze_text_wellLeveled, analyze_url_wellLeveled,
   identitywatch_assess_wellLeveled⟩

/-- C1 witness: the bounds-and-level invariant at concrete inputs of
all five scorers, with every hypothesis discharged by evaluation. -/
theorem c1_scorer_bounds_and_levels_witness :
    WellLeveled (CallGuard.assessRule [PyVal.str "urgency"]) ∧
    WellLeveled mgP1R ∧ WellLeveled textR ∧ WellLeveled urlSpoofR ∧
    WellLeveled (IdentityWatch.assess [("account_opened", PyVal.bool true)]) :=
  ⟨c1_scorer_bounds_and_levels.1 _,
   c1_scorer_bounds_and_levels.2.1 mgP1 mgP1R (by rfl),
   c1_scorer_bounds_and_levels.2.2.1
     "Final notice: verify your account immediately at https://bit.ly/fake-login"
     (PyVal.str "sms") textR (by rfl),
   c1_scorer_bounds_and_levels.2.2.2.1 "http://xn--paypa1-login.example.com/verify"
     urlSpoofR (by rfl),
   c1_scorer_bounds_and_levels.2.2.2.2 _⟩

lemma str_eq_empty_of_data_nil (s : String) (h : s.data = []) : s = "" := by
  cases s with
  | mk d =>
      simp only at h
      subst h
      rfl

lemma enc_data_ne_nil (c : Cipher) (x : String) : (c.enc x).data.isEmpty = false := by
  cases henc : (c.enc x).data with
  | nil => exact absurd (str_eq_empty_of_data_nil _ henc) (c.enc_ne_empty x)
  | cons a t => rfl

/-- C2: the cipher wrapper round-trips every string
(`decrypt (encrypt x) = x`), and any string that encryption can never
produce passes through `decrypt` unchanged — with encryption enabled or
disabled. -/
theorem c2_encrypt_decrypt_round_trip :
    ∀ (c : Cipher) (enabled : Bool) (x : String),
      DataEncryption.decrypt ⟨c, enabled⟩ (DataEncryption.encrypt ⟨c, enabled⟩ x) = x ∧
      ((∀ s, c.enc s ≠ x) → DataEncryption.decrypt ⟨c, enabled⟩ x = x) := by
  intro c enabled x
  constructor
  · cases enabled with
    | false => simp [DataEncryption.encrypt, DataEncryption.decrypt]
    | true =>
        by_cases hx : x.data.isEmpty
        · simp [DataEncryption.encrypt, DataEncryption.decrypt, hx]
        · have he : DataEncryption.encrypt ⟨c, true⟩ x = c.enc x := by
            simp [DataEncryption.encrypt, hx]
          rw [he]
          simp [DataEncryption.decrypt, enc_data_ne_nil c x, c.dec_enc x]
  · intro hnever
    cases enabled with
    | false => simp [DataEncryption.decrypt]
    | true =>
        by_cases hx : x.data.isEmpty
        · simp [DataEncryption.decrypt, hx]
        · simp only [DataEncryption.decrypt, hx, Bool.not_true, Bool.false_or,
            Bool.false_eq_true, if_false]
          cases hd : c.dec x with
          | none => rfl
          | some p => exact absurd (c.enc_of_dec x p hd).symm (hnever p)

/-- C2 witness: both statements at the toy cipher instance with
encryption enabled, on the plain string "hello" (which no toy token
ever equals, since tokens start with the marker character). -/
theorem c2_encrypt_decrypt_round_trip_witness :
    DataEncryption.decrypt toyEncryption (DataEncryption.encrypt toyEncryption "hello") = "hello" ∧
    DataEncryption.decrypt toyEncryption "hello" = "hello" :=
  ⟨(c2_encrypt_decrypt_round_trip toyCipher true "hello").1,
   (c2_encrypt_decrypt_round_trip toyCipher true "hello").2 (fun s h => by
     have h2 : ('E' :: s.data) = "hello".data := congrArg String.data h
     injection h2 with h3 _
     exact absurd h3 (by decide))⟩

/-- C3 counterexample: with encryption enabled, the view returned by
`MemoryStore.get_session` still carries the stored (encrypted) event
payload — the sensitive "email" field of the only event is the cipher
token, not its decryption — refuting the claim that every event payload
in the view is decrypted. -/
theorem c3_counterexample :
    ((Storage.get_session st3 5 "s3").1.map (fun v => v.events.map (fun e => e.payload)))
        = some [[("email", PyVal.str (toyCipher.enc "bob"))]] ∧
      PyVal.str (toyCipher.enc "bob") ≠ PyVal.str "bob" := by
  constructor
  · rfl
  · intro h
    injection h with h2
    exact absurd h2 (by decide)

/-- C3 amended: `get_session` refreshes `last_accessed_at` to the
current time and returns a view whose `user_id` and `device_id` are
decrypted but whose events are exactly as stored (their payloads stay
encrypted; the HTTP layer decrypts them separately); an unknown id
returns nothing and leaves the store untouched. -/
theorem c3_get_session_amended :
    ∀ (st : Storage.MemoryStore) (now : Int) (sid : String),
      (List.lookup sid st.sessions = Option.none →
        Storage.get_session st now sid = (Option.none, st)) ∧
      (∀ rec, List.lookup sid st.sessions = some rec →
        Storage.get_session st now sid =
          (some { rec with
                    user_id := st.encryption.decrypt rec.user_id
                    device_id := st.encryption.decrypt rec.device_id
                    last_accessed_at := now },
           { st with sessions := (Storage.updateSession st.sessions sid
               (fun _ => { rec with last_accessed_at := now })) })) := by
  intro st now sid
  constructor
  · intro h
    unfold Storage.get_session
    rw [h]
  · intro rec h
    unfold Storage.get_session
    rw [h]
    rfl

/-- C3 witness: the amended description evaluated on the concrete store
`st3`. -/
theorem c3_get_session_amended_witness :
    Storage.get_session st3 5 "s3" =
      (some { rec3 with
                user_id := toyEncryption.decrypt rec3.user_id
                device_id := toyEncryption.decrypt rec3.device_id
                last_accessed_at := 5 },
       { st3 with sessions := (Storage.updateSession st3.sessions "s3"
           (fun _ => { rec3 with last_accessed_at := 5 })) }) :=
  (c3_get_session_amended st3 5 "s3").2 rec3 (by rfl)

lemma lookup_updateSession_self (ss : List (String × Storage.SessionRecord))
    (sid : String) (f : Storage.SessionRecord → Storage.SessionRecord) :
    List.lookup sid (Storage.updateSession ss sid f) = (List.lookup sid ss).map f := by
  induction ss with
  | nil => rfl
  | cons p t ih =>
      obtain ⟨k, v⟩ := p
      by_cases hk : k = sid
      · subst hk
        simp only [Storage.updateSession, List.map_cons]
        simp [List.lookup]
      · simp only [Storage.updateSession, List.map_cons, if_neg hk]
        simp only [List.lookup]
        simp only [show (sid == k) = false from by simp [Ne.symm hk]]
        exact ih

lemma lookup_updateSession_ne (ss : List (String × Storage.SessionRecord))
    (sid : String) (f : Storage.SessionRecord → Storage.SessionRecord)
    (sid' : String) (h : sid' ≠ sid) :
    List.lookup sid' (Storage.updateSession ss sid f) = List.lookup sid' ss := by
  induction ss with
  | nil => rfl
  | cons p t ih =>
      obtain ⟨k, v⟩ := p
      by_cases hk : k = sid
      · subst hk
        simp only [Storage.updateSession, List.map_cons, if_pos rfl]
        simp only [List.lookup]
        simp only [show (sid' == k) = false from by simp [h]]
        exact ih
      · simp only [Storage.updateSession, List.map_cons, if_neg hk]
        simp only [List.lookup]
        cases hbe : (sid' == k) with
        | true => simp only [hbe]
        | false =>
            simp only [hbe]
            exact ih

/-- C10: appending an event to an existing session adds exactly one
event — carrying the supplied fresh id and the payload with its
sensitive fields encrypted — at the end of that session's log, and
changes nothing else: the record's other fields (module, identifiers,
created_at, last_risk and in particular last_accessed_at) are
unchanged, every other session is untouched, and an unknown id leaves
the store as it was. -/
theorem c10_append_event_frame :
    ∀ (st : Storage.MemoryStore) (sid : String) (event : Storage.EventIn) (new_id : String),
      (List.lookup sid st.sessions = Option.none →
        Storage.append_event st sid event new_id = (Option.none, st)) ∧
      (∀ rec, List.lookup sid st.sessions = some rec →
        (Storage.append_event st sid event new_id).1 =
          some ⟨new_id, event.type,
                Storage.encryptEventPayload st.encryption event.payload,
                event.timestamp⟩ ∧
        List.lookup sid (Storage.append_event st sid event new_id).2.sessions =
          some { rec with events := rec.events ++
            [⟨new_id, event.type,
              Storage.encryptEventPayload st.encryption event.payload,
              event.timestamp⟩] } ∧
        (∀ sid', sid' ≠ sid →
          List.lookup sid' (Storage.append_event st sid event new_id).2.sessions =
            List.lookup sid' st.sessions) ∧
        (Storage.append_event st sid event new_id).2.encryption = st.encryption ∧
        (Storage.append_event st sid event new_id).2.session_ttl_hours =
          st.session_ttl_hours) := by
  intro st sid event new_id
  constructor
  · intro h
    unfold Storage.append_event
    rw [h]
  · intro rec h
    refine ⟨?_, ?_, ?_, ?_, ?_⟩
    · unfold Storage.append_event; rw [h]
    · unfold Storage.append_event; rw [h]
      simp only
      rw [lookup_updateSession_self, h]
      rfl
    · intro sid' hs
      unfold Storage.append_event; rw [h]
      simp only
      exact lookup_updateSession_ne _ _ _ _ hs
    · unfold Storage.append_event; rw [h]
    · unfold Storage.append_event; rw [h]

/-- C10 witness: the frame property evaluated on the concrete store
`st3` — the appended event gets id "e2", its sensitive "email" field is
stored encrypted while "note" is untouched, the record keeps its other
fields (in particular `last_accessed_at` stays 0, so an append is not
an access), and an absent key is unaffected. -/
theorem c10_append_event_frame_witness :
    (Storage.append_event st3 "s3" evS "e2").1 =
      some ⟨"e2", "signal",
            [("email", PyVal.str (toyCipher.enc "bob")), ("note", PyVal.str "x")], 3⟩ ∧
    List.lookup "s3" (Storage.append_event st3 "s3" evS "e2").2.sessions =
      some { rec3 with events := rec3.events ++
        [⟨"e2", "signal",
          [("email", PyVal.str (toyCipher.enc "bob")), ("note", PyVal.str "x")], 3⟩] } ∧
    List.lookup "other" (Storage.append_event st3 "s3" evS "e2").2.sessions =
      List.lookup "other" st3.sessions := by
  obtain ⟨h1, h2, h3, -, -⟩ := (c10_append_event_frame st3 "s3" evS "e2").2 rec3 (by rfl)
  refine ⟨?_, ?_, h3 "other" (by decide)⟩
  · rw [h1]; rfl
  · rw [h2]; rfl

/-- C9: with a positive TTL, one idle-expiry sweep keeps exactly the
sessions whose idle time does not strictly exceed the TTL (in seconds,
`now > last_accessed_at + ttl * 3600` deletes) and reports the number
deleted; with TTL zero the sweep does nothing and reports zero. -/
theorem c9_idle_expiry_sweep :
    (∀ (st : Storage.MemoryStore) (now : Int), 0 < st.session_ttl_hours →
      (Storage.cleanup_expired_sessions st now).1.sessions =
        st.sessions.filter
          (fun kr => !decide (now > kr.2.last_accessed_at + st.session_ttl_hours * 3600)) ∧
      (Storage.cleanup_expired_sessions st now).2 =
        (st.sessions.filter
          (fun kr => decide (now > kr.2.last_accessed_at + st.session_ttl_hours * 3600))).length) ∧
    (∀ (st : Storage.MemoryStore) (now : Int), st.session_ttl_hours = 0 →
      Storage.cleanup_expired_sessions st now = (st, 0)) := by
  constructor
  · intro st now h
    have hne : ¬ st.session_ttl_hours ≤ 0 := by omega
    have hp : (fun kr : String × Storage.SessionRecord =>
        Storage.isSessionExpired st.session_ttl_hours now kr.2) =
        (fun kr => decide (now > kr.2.last_accessed_at + st.session_ttl_hours * 3600)) := by
      funext kr
      unfold Storage.isSessionExpired
      rw [if_neg hne]
    have hq : (fun kr : String × Storage.SessionRecord =>
        !Storage.isSessionExpired st.session_ttl_hours now kr.2) =
        (fun kr => !decide (now > kr.2.last_accessed_at + st.session_ttl_hours * 3600)) := by
      funext kr
      unfold Storage.isSessionExpired
      rw [if_neg hne]
    constructor
    · unfold Storage.cleanup_expired_sessions
      rw [if_neg hne]
      simp only
      rw [hq]
    · unfold Storage.cleanup_expired_sessions
      rw [if_neg hne]
      simp only
      rw [hp]
  · intro st now h
    unfold Storage.cleanup_expired_sessions
    rw [if_pos (by omega)]

/-- C9 witness: with TTL one hour at sweep time 10000, the session idle
for 61 minutes (3660 s) is removed and the one idle for 59 minutes
(3540 s) is retained, with one deletion reported; the TTL-zero store is
returned unchanged with zero deletions. -/
theorem c9_idle_expiry_sweep_witness :
    (Storage.cleanup_expired_sessions stW 10000).1.sessions = [("fresh", rec59)] ∧
    (Storage.cleanup_expired_sessions stW 10000).2 = 1 ∧
    Storage.cleanup_expired_sessions stZ 10000 = (stZ, 0) := by
  obtain ⟨h1, h2⟩ := c9_idle_expiry_sweep.1 stW 10000 (by decide)
  refine ⟨?_, ?_, c9_idle_expiry_sweep.2 stZ 10000 (by rfl)⟩
  · rw [h1]; rfl
  · rw [h2]; rfl

/-- C4: the risk returned by the append-event route is computed over the
event log that already includes the newly appended event — in Python
because the captured session view aliases the stored events list — and
in the concrete callguard scenario the first append (signal
"verification_code_request") dispatches score 35 and the second append
(adding "remote_access_request") dispatches score 65 at level medium. -/
theorem c4_append_reflects_new_event :
    (∀ (st : Storage.MemoryStore) (now : Int) (sid : String) (event : Storage.EventIn)
        (new_id : String) (rec : Storage.SessionRecord),
        List.lookup sid st.sessions = some rec →
        ∀ risk st', Main.appendEventHandler st now sid event new_id = .ok (risk, st') →
          Main.assessSessionRisk st.encryption rec.module
            (rec.events ++ [⟨new_id, event.type,
              Storage.encryptEventPayload st.encryption event.payload, event.timestamp⟩])
            = .ok risk) ∧
    scoreOfRes res1 = some 35 ∧
    scoreOfRes res2 = some 65 ∧
    levelOfRes res2 = some "medium" := by
  refine ⟨?_, by rfl, by rfl, by rfl⟩
  intro st now sid event new_id rec h risk st' hh
  have hget : Storage.get_session st now sid =
      (some (Storage.getDecryptedRecord st.encryption { rec with last_accessed_at := now }),
       { st with sessions := (Storage.updateSession st.sessions sid
           (fun _ => { rec with last_accessed_at := now })) }) := by
    unfold Storage.get_session
    rw [h]
  have h1 : List.lookup sid
      (Storage.updateSession st.sessions sid
        (fun _ => { rec with last_accessed_at := now })) =
      some { rec with last_accessed_at := now } := by
    rw [lookup_updateSession_self, h]
    rfl
  unfold Main.appendEventHandler at hh
  rw [hget] at hh
  dsimp only at hh
  unfold Storage.append_event at hh
  dsimp only at hh
  rw [h1] at hh
  dsimp only at hh
  rw [lookup_updateSession_self, h1] at hh
  simp only [Option.map_some', Storage.getDecryptedRecord] at hh
  cases hass : Main.assessSessionRisk st.encryption rec.module
      (rec.events ++ [⟨new_id, event.type,
        Storage.encryptEventPayload st.encryption event.payload, event.timestamp⟩]) with
  | error e =>
      rw [hass] at hh
      exact absurd hh (by simp)
  | ok r =>
      rw [hass] at hh
      simp only [Except.ok.injEq, Prod.mk.injEq] at hh
      rw [hh.1]

/-- C4 witness: the refinement instantiated on the concrete scenario
store — dispatching over the log including the first appended event
yields exactly the risk the handler returned. -/
theorem c4_append_reflects_new_event_witness :
    Main.assessSessionRisk st0.encryption rec0.module
      (rec0.events ++ [⟨"e1", ev1.type,
        Storage.encryptEventPayload st0.encryption ev1.payload, ev1.timestamp⟩])
      = .ok (riskOfRes res1) :=
  c4_append_reflects_new_event.1 st0 1 "s1" ev1 "e1" rec0 (by rfl)
    (riskOfRes res1) st1 (by rfl)

lemma ne_of_data_head (s t : String) (h : s.data.head? ≠ t.data.head?) : s ≠ t :=
  fun e => h (by rw [e])

lemma headq_append (a x : String) (hne : a.data ≠ []) :
    (a ++ x).data.head? = a.data.head? := by
  rw [String.data_append]
  cases ha : a.data with
  | nil => exact absurd ha hne
  | cons c t => simp

lemma payment_reason_ne (pm : String) :
    "High-risk payment method: " ++ pm ≠ MoneyGuard.largeAmountReason := by
  apply ne_of_data_head
  rw [headq_append _ _ (by decide)]
  decide

lemma scam_reason_ne (s : String) :
    "Common scam pattern detected: " ++ s ≠ MoneyGuard.largeAmountReason := by
  apply ne_of_data_head
  rw [headq_append _ _ (by decide)]
  decide

lemma impersonation_reason_ne (u x : String) :
    "Possible " ++ u ++ x ≠ MoneyGuard.largeAmountReason := by
  apply ne_of_data_head
  rw [headq_append ("Possible " ++ u) x
    (by rw [String.data_append]; simp)]
  rw [headq_append _ _ (by decide)]
  decide

lemma mem_snd_if_single (c : Bool) (w : Nat) (s r : String) :
    (r ∈ (if c then [(w, s)] else []).map (fun h => h.2)) ↔ (c = true ∧ r = s) := by
  cases c <;> simp

lemma mem_snd_opt_single (o : Option Nat) (s r : String)
    (h : r ∈ ((match o with
               | some w => [(w, s)]
               | Option.none => []) : List (Nat × String)).map (fun h => h.2)) :
    r = s := by
  cases o <;> simp_all

lemma largeAmount_mem_hitList (pm : String) (amount : ℚ) (did : Bool)
    (flags : List (String × PyVal)) (sct imp : String) :
    (MoneyGuard.largeAmountReason ∈
      (MoneyGuard.hitList pm amount did flags sct imp).map (fun h => h.2)) ↔
      (did = true ∧ amount > 500) := by
  unfold MoneyGuard.hitList
  simp only [List.map_append, List.mem_append]
  constructor
  · rintro ((((((((((((((h | h) | h) | h) | h) | h) | h) | h) | h) | h) | h) | h) | h) | h) | h)
    · exact absurd (mem_snd_opt_single _ _ _ h).symm (payment_reason_ne (underscoresToSpaces pm))
    · obtain ⟨hc, -⟩ := (mem_snd_if_single _ _ _ _).mp h
      simp only [Bool.and_eq_true, decide_eq_true_eq] at hc
      exact hc
    · exact absurd ((mem_snd_if_single _ _ _ _).mp h).2 (by decide)
    · exact absurd ((mem_snd_if_single _ _ _ _).mp h).2 (by decide)
    · exact absurd ((mem_snd_if_single _ _ _ _).mp h).2 (by decide)
    · exact absurd ((mem_snd_if_single _ _ _ _).mp h).2 (by decide)
    · exact absurd (mem_snd_opt_single _ _ _ h).symm (scam_reason_ne (underscoresToSpaces sct))
    · exact absurd ((mem_snd_if_single _ _ _ _).mp h).2 (by decide)
    · exact absurd ((mem_snd_if_single _ _ _ _).mp h).2 (by decide)
    · exact absurd ((mem_snd_if_single _ _ _ _).mp h).2 (by decide)
    · exact absurd ((mem_snd_if_single _ _ _ _).mp h).2 (by decide)
    · exact absurd ((mem_snd_if_single _ _ _ _).mp h).2 (by decide)
    · exact absurd ((mem_snd_if_single _ _ _ _).mp h).2 (by decide)
    · exact absurd ((mem_snd_if_single _ _ _ _).mp h).2 (by decide)
    · exact absurd (mem_snd_opt_single _ _ _ h).symm (impersonation_reason_ne _ _)
  · rintro ⟨hd, ha⟩
    refine Or.inl (Or.inl (Or.inl (Or.inl (Or.inl (Or.inl (Or.inl (Or.inl (Or.inl
      (Or.inl (Or.inl (Or.inl (Or.inl (Or.inr
        ((mem_snd_if_single _ _ _ _).mpr ⟨?_, rfl⟩))))))))))))))
    simp [hd, ha]

/-- C5 counterexample: `moneyguard.assess` raises on a payload whose
amount is the truthy non-numeric string "abc" — `float("abc")` raises
ValueError, so the claim that assess never raises and treats every
non-numeric amount as zero is false. -/
theorem c5_counterexample :
    MoneyGuard.assess mgAbc = .error "ValueError: could not convert string to float" := by
  rfl

lemma mem_reasons_build (s : Int) (rs : List String) (na : String)
    (ra : List RecommendedAction) (ss : Option SafeScript)
    (md : List (String × PyVal)) (r d : String) (hd : r ≠ d) :
    (r ∈ (build_risk_response s (if rs.isEmpty then [d] else rs) na ra ss md).reasons) ↔
      r ∈ rs := by
  simp only [build_risk_response]
  cases rs with
  | nil => simp [hd]
  | cons a t => simp

/-- C5 amended: `moneyguard.assess` returns a well-formed response for
every payload whose amount coerces under `float` (numbers, booleans,
decimal-numeral strings, and falsy values, which default to zero) and
whose `flags` field is a dictionary or falsy; on those inputs the
+15 large-amount contribution fires exactly when
`did_they_contact_you_first` is truthy and the coerced amount exceeds
500 — in particular a negative amount never fires it.  A truthy
non-coercible amount (or a truthy non-dict `flags`) instead raises,
which the transport layer reports as an error. -/
theorem c5_moneyguard_amount_amended :
    ∀ (payload : List (String × PyVal)) (amount : ℚ) (flags : List (String × PyVal)),
      pyFloat (pyOr (pyGet payload "amount" (PyVal.num 0)) (PyVal.num 0)) = .ok amount →
      asFlagsDict (pyOr (pyGet payload "flags" (PyVal.dict [])) (PyVal.dict [])) = .ok flags →
      ∃ r, MoneyGuard.assess payload = .ok r ∧ WellLeveled r ∧
        ((MoneyGuard.largeAmountReason ∈ r.reasons) ↔
          ((pyGet payload "did_they_contact_you_first" PyVal.none).truthy = true ∧
            amount > 500)) := by
  intro payload amount flags ha hf
  unfold MoneyGuard.assess
  rw [ha, hf]
  refine ⟨_, rfl, build_risk_response_wellLeveled _ _ _ _ _ _, ?_⟩
  rw [mem_reasons_build _ _ _ _ _ _ _ _ (by decide)]
  exact largeAmount_mem_hitList _ _ _ _ _ _

/-- C5 witness: the amended statement evaluated on the negative-amount
payload `mgNeg` — assess succeeds and the large-amount reason is absent
because a negative amount cannot exceed 500. -/
theorem c5_moneyguard_amount_amended_witness :
    MoneyGuard.assess mgNeg = .ok mgNegR ∧
    MoneyGuard.largeAmountReason ∉ mgNegR.reasons := by
  obtain ⟨r, hr, -, hiff⟩ := c5_moneyguard_amount_amended mgNeg (-100) [] (by rfl) (by rfl)
  have he : r = mgNegR := by
    have h2 : MoneyGuard.assess mgNeg = .ok mgNegR := by rfl
    rw [hr] at h2
    simpa using h2
  subst he
  refine ⟨hr, fun hm => ?_⟩
  have := hiff.mp hm
  exact absurd this.2 (by decide)

lemma maxWeight_cons (s : String) (t : List String) :
    CallGuard.maxWeight (s :: t) = max (CallGuard.weightOf s) (CallGuard.maxWeight t) := rfl

lemma primFold_spec (l : List String) (b : Option String) (w : Nat) :
    CallGuard.primFold l b w =
      if CallGuard.maxWeight l > w then
        (l.find? (fun s => CallGuard.weightOf s == CallGuard.maxWeight l),
         CallGuard.maxWeight l)
      else (b, w) := by
  induction l generalizing b w with
  | nil =>
      simp only [CallGuard.primFold, CallGuard.maxWeight, List.map_nil, List.foldr_nil]
      rw [if_neg (by omega)]
  | cons s t ih =>
      simp only [CallGuard.primFold]
      rw [maxWeight_cons]
      by_cases hws : CallGuard.weightOf s > w
      · rw [if_pos hws, ih]
        by_cases hMt : CallGuard.maxWeight t > CallGuard.weightOf s
        · rw [if_pos hMt, if_pos (by omega), Nat.max_eq_right (le_of_lt hMt)]
          rw [List.find?_cons_of_neg]
          simp only [beq_iff_eq]
          omega
        · rw [if_neg hMt, if_pos (by omega), Nat.max_eq_left (by omega)]
          rw [List.find?_cons_of_pos]
          simp
      · rw [if_neg hws, ih]
        by_cases hMt : CallGuard.maxWeight t > w
        · rw [if_pos hMt, if_pos (by omega), Nat.max_eq_right (by omega)]
          rw [List.find?_cons_of_neg]
          simp only [beq_iff_eq]
          omega
        · rw [if_neg hMt, if_neg (by omega)]

/-- C6 counterexample: on the tied input
`["gift_cards", "crypto_payment"]` (both weight 30) the rule scorer
reports the first-seen signal "gift_cards" as primary, not the
last-seen "crypto_payment" the claim requires. -/
theorem c6_counterexample :
    List.lookup "primary_signal"
        (CallGuard.ruleBased ["gift_cards", "crypto_payment"]).metadata
        = some (PyVal.str "gift_cards") ∧
      "gift_cards" ≠ "crypto_payment" :=
  ⟨rfl, by decide⟩

/-- C6 amended: duplicate signal occurrences each add their weight to
the score (the raw score is the sum of the weights over all
occurrences, then clamped), and when several matched signals share the
maximum weight the primary signal — reported in
`metadata.primary_signal` and used to select the safe script — is the
FIRST-seen highest-weighted signal in input order (the loop replaces
the running best only on a strict increase); when no signal matches,
the primary is "none" and no script is attached. -/
theorem c6_duplicates_and_tiebreak_amended :
    (∀ (s : String) (signals : List String),
        CallGuard.rawScore (s :: signals) =
          CallGuard.weightOf s + CallGuard.rawScore signals) ∧
    (∀ signals : List String,
        (CallGuard.ruleBased signals).score = clamp_score (CallGuard.rawScore signals)) ∧
    (∀ signals : List String, 0 < CallGuard.maxWeight signals →
        ∀ t, signals.find?
            (fun s => CallGuard.weightOf s == CallGuard.maxWeight signals) = some t →
          List.lookup "primary_signal" (CallGuard.ruleBased signals).metadata =
            some (PyVal.str t) ∧
          (CallGuard.ruleBased signals).safe_script =
            List.lookup t CallGuard.SAFE_SCRIPTS) ∧
    (∀ signals : List String, CallGuard.maxWeight signals = 0 →
        List.lookup "primary_signal" (CallGuard.ruleBased signals).metadata =
          some (PyVal.str "none") ∧
        (CallGuard.ruleBased signals).safe_script = Option.none) := by
  refine ⟨?_, ?_, ?_, ?_⟩
  · intro s signals
    simp [CallGuard.rawScore]
  · intro signals
    rfl
  · intro signals hmax t hfind
    have hb : (CallGuard.primFold signals Option.none 0).1 = some t := by
      rw [primFold_spec, if_pos (by omega)]
      simpa using hfind
    constructor
    · unfold CallGuard.ruleBased build_risk_response
      dsimp only
      rw [hb]
      rfl
    · unfold CallGuard.ruleBased build_risk_response
      dsimp only
      rw [hb]
  · intro signals hmax
    have hb : (CallGuard.primFold signals Option.none 0).1 = Option.none := by
      rw [primFold_spec, if_neg (by omega)]
    constructor
    · unfold CallGuard.ruleBased build_risk_response
      dsimp only
      rw [hb]
      rfl
    · unfold CallGuard.ruleBased build_risk_response
      dsimp only
      rw [hb]

/-- C6 witness: the amended tie-break and duplicate-summing facts
evaluated on concrete inputs — the tied list yields the first-seen
"gift_cards" as primary, and two occurrences of "urgency" score 20. -/
theorem c6_duplicates_and_tiebreak_amended_witness :
    List.lookup "primary_signal"
        (CallGuard.ruleBased ["gift_cards", "crypto_payment", "urgency"]).metadata
        = some (PyVal.str "gift_cards") ∧
      CallGuard.rawScore ["urgency", "urgency"] = 20 := by
  refine ⟨(c6_duplicates_and_tiebreak_amended.2.2.1
    ["gift_cards", "crypto_payment", "urgency"] (by decide) "gift_cards" (by decide)).1, ?_⟩
  rw [c6_duplicates_and_tiebreak_amended.1 "urgency" ["urgency"]]
  decide

/-- C7 counterexample: on the high-risk input the scorer attaches the
verification-code safe script (the primary signal has weight 35), which
is not the bank-impersonation script the claim names. -/
theorem c7_counterexample :
    (CallGuard.assessRule [PyVal.str "verification_code_request",
        PyVal.str "remote_access_request", PyVal.str "bank_impersonation"]).safe_script
      = some ⟨"I never share verification codes.",
              "Without that, I can\x27t proceed. Goodbye."⟩ ∧
    some (⟨"I never share verification codes.",
           "Without that, I can\x27t proceed. Goodbye."⟩ : SafeScript) ≠
      List.lookup "bank_impersonation" CallGuard.SAFE_SCRIPTS :=
  ⟨rfl, by decide⟩

/-- C7 amended: the input
`["verification_code_request", "remote_access_request",
"bank_impersonation"]` scores 90 at level high with exactly three
reasons, the primary signal is "verification_code_request", and the
attached safe script is the verification-code-request script (the
script is keyed off the primary signal, which outweighs
bank_impersonation). -/
theorem c7_callguard_high_amended :
    (CallGuard.assessRule [PyVal.str "verification_code_request",
        PyVal.str "remote_access_request", PyVal.str "bank_impersonation"]).score = 90 ∧
    (CallGuard.assessRule [PyVal.str "verification_code_request",
        PyVal.str "remote_access_request", PyVal.str "bank_impersonation"]).level = "high" ∧
    (CallGuard.assessRule [PyVal.str "verification_code_request",
        PyVal.str "remote_access_request", PyVal.str "bank_impersonation"]).reasons.length = 3 ∧
    List.lookup "primary_signal"
        (CallGuard.assessRule [PyVal.str "verification_code_request",
          PyVal.str "remote_access_request", PyVal.str "bank_impersonation"]).metadata
      = some (PyVal.str "verification_code_request") ∧
    (CallGuard.assessRule [PyVal.str "verification_code_request",
        PyVal.str "remote_access_request", PyVal.str "bank_impersonation"]).safe_script
      = List.lookup "verification_code_request" CallGuard.SAFE_SCRIPTS :=
  ⟨rfl, rfl, rfl, rfl, rfl⟩

lemma sLower_isEmpty (s : String) : (sLower s).data.isEmpty = s.data.isEmpty := by
  unfold sLower
  cases hd : s.data <;> simp

lemma seg_len (c : Prop) [Decidable c] (s : String) :
    (if c then [s] else []).length = if c then 1 else 0 := by
  split <;> rfl

lemma mem_ite_single (c : Prop) [Decidable c] (s a : String)
    (h : a ∈ (if c then [s] else [])) : a = s := by
  by_cases hc : c
  · rw [if_pos hc] at h
    simpa using h
  · rw [if_neg hc] at h
    simp at h

lemma ite_len_le_one (c : Prop) [Decidable c] (s : String) :
    (if c then [s] else []).length ≤ 1 := by
  split <;> simp

lemma data_isEmpty_false_of_ne (s : String) (h : s ≠ "") : s.data.isEmpty = false := by
  cases hd : s.data with
  | nil => exact absurd (str_eq_empty_of_data_nil s hd) h
  | cons a t => rfl

lemma ite_one_le (c : Prop) [Decidable c] : (if c then 1 else 0) ≤ 1 := by
  split <;> omega

lemma clamp_score_id (n : Int) (h0 : 0 ≤ n) (h1 : n ≤ 100) : clamp_score n = n := by
  unfold clamp_score
  omega

lemma urlFlags_len_le6 (domain : String) (c5 : Prop) [Decidable c5] :
    ((if InboxGuard.URL_SHORTENERS.contains domain then ["URL shortener used"] else []) ++
     (if InboxGuard.ipSearch domain.data then ["IP address used in URL"] else []) ++
     (if domain.data.count '-' ≥ 2 then ["Multiple hyphens in domain"] else []) ++
     (if domain.data.count '.' ≥ 3 then ["Long subdomain chain"] else []) ++
     (if c5 then ["Contains sensitive action keywords"] else []) ++
     (if strContains domain "xn--" then ["Punycode domain detected"] else []) ++
     (if InboxGuard.tldLen domain.data > 3 then ["Unusual TLD length"] else [])).length
      ≤ 6 := by
  simp only [List.length_append, seg_len]
  have b2 := ite_one_le (InboxGuard.ipSearch domain.data = true)
  have b4 := ite_one_le (domain.data.count '.' ≥ 3)
  have b5 := ite_one_le c5
  have b6 := ite_one_le (strContains domain "xn--" = true)
  have b7 := ite_one_le (InboxGuard.tldLen domain.data > 3)
  by_cases h1 : InboxGuard.URL_SHORTENERS.contains domain = true
  · have hdom : domain = "bit.ly" ∨ domain = "tinyurl.com" ∨ domain = "t.co" ∨
        domain = "goo.gl" ∨ domain = "ow.ly" := by
      simp [InboxGuard.URL_SHORTENERS] at h1
      tauto
    have h3 : ¬ (domain.data.count '-' ≥ 2) := by
      rcases hdom with rfl | rfl | rfl | rfl | rfl <;> decide
    rw [if_pos h1, if_neg h3]
    omega
  · rw [if_neg h1]
    have b3 := ite_one_le (domain.data.count '-' ≥ 2)
    omega

/-- C8 counterexample: on the input "notaurl" the parsed host is empty,
so none of the seven URL tests fires, yet the score is 15 — the early
"No domain found" branch contributes a flag of its own — refuting the
universal 15-per-fired-test formula and the zero-score sentinel clause. -/
theorem c8_counterexample :
    InboxGuard.sevenTestCount "notaurl" = 0 ∧
    (InboxGuard.analyze_url "notaurl").map (fun r => (r.score, r.reasons)) =
      .ok (15, ["No domain found"]) := ⟨rfl, rfl⟩

lemma analyze_url_ok_shape (url : String) (L : List String)
    (hflags : InboxGuard.url_flags url = .ok L)
    (hlen : 15 * L.length ≤ 100)
    (hfil : (L.filter (fun f => f ≠ "No domain found")).length = L.length) :
    ∀ r, InboxGuard.analyze_url url = .ok r →
      r.score = 15 * (InboxGuard.sevenTestCount url : Int) ∧
      (InboxGuard.sevenTestCount url = 0 →
        r.score = 0 ∧ r.reasons = ["No obvious URL red flags detected."]) := by
  intro r hr
  have hcount : InboxGuard.sevenTestCount url = L.length := by
    unfold InboxGuard.sevenTestCount
    rw [hflags]
    exact hfil
  unfold InboxGuard.analyze_url at hr
  rw [hflags] at hr
  simp only [Except.ok.injEq] at hr
  subst hr
  constructor
  · simp only [build_risk_response]
    rw [hcount, clamp_score_id]
    · push_cast
      ring
    · exact_mod_cast Nat.zero_le _
    · exact_mod_cast hlen
  · intro h0
    rw [hcount] at h0
    have hnil : L = [] := List.length_eq_zero.mp h0
    subst hnil
    constructor
    · simp [build_risk_response, clamp_score]
    · simp [build_risk_response]

/-- C8 amended: whenever URL parsing succeeds, an input with a
non-empty host scores exactly 15 points per fired test among the seven,
with the sentinel reason exactly when none fires and the score is 0;
an input with an empty host instead scores a flat 15 with the single
reason "No domain found". -/
theorem c8_url_score_amended :
    ∀ (url netloc : String), InboxGuard.netlocOf url = some netloc →
      ∀ r, InboxGuard.analyze_url url = .ok r →
        (netloc ≠ "" →
          r.score = 15 * (InboxGuard.sevenTestCount url : Int) ∧
          (InboxGuard.sevenTestCount url = 0 →
            r.score = 0 ∧ r.reasons = ["No obvious URL red flags detected."])) ∧
        (netloc = "" → r.score = 15 ∧ r.reasons = ["No domain found"]) := by
  intro url netloc hn r hr
  by_cases hne : netloc = ""
  · subst hne
    have hflags : InboxGuard.url_flags url = .ok ["No domain found"] := by
      unfold InboxGuard.url_flags
      rw [hn]
      rfl
    unfold InboxGuard.analyze_url at hr
    rw [hflags] at hr
    simp only [Except.ok.injEq] at hr
    subst hr
    refine ⟨fun hcon => absurd rfl hcon, fun _ => ⟨?_, rfl⟩⟩
    simp [build_risk_response, clamp_score]
  · have hdom : (sLower netloc).data.isEmpty = false := by
      rw [sLower_isEmpty]
      exact data_isEmpty_false_of_ne netloc hne
    have hflags : InboxGuard.url_flags url = .ok
        ((if InboxGuard.URL_SHORTENERS.contains (sLower netloc) then ["URL shortener used"] else []) ++
         (if InboxGuard.ipSearch (sLower netloc).data then ["IP address used in URL"] else []) ++
         (if (sLower netloc).data.count '-' ≥ 2 then ["Multiple hyphens in domain"] else []) ++
         (if (sLower netloc).data.count '.' ≥ 3 then ["Long subdomain chain"] else []) ++
         (if InboxGuard.SENSITIVE_KEYWORDS.any (fun k => strContains (sLower url) k) then
            ["Contains sensitive action keywords"] else []) ++
         (if strContains (sLower netloc) "xn--" then ["Punycode domain detected"] else []) ++
         (if InboxGuard.tldLen (sLower netloc).data > 3 then ["Unusual TLD length"] else [])) := by
      unfold InboxGuard.url_flags
      rw [hn]
      dsimp only
      rw [hdom]
      rfl
    refine ⟨fun _ => analyze_url_ok_shape url _ hflags ?_ ?_ r hr,
      fun hcon => absurd hcon hne⟩
    · have hle := urlFlags_len_le6 (sLower netloc)
        ((InboxGuard.SENSITIVE_KEYWORDS.any (fun k => strContains (sLower url) k)) = true)
      omega
    · rw [List.filter_eq_self.mpr]
      intro a ha
      simp only [List.mem_append] at ha
      rcases ha with ((((((ha | ha) | ha) | ha) | ha) | ha) | ha) <;>
        (rw [mem_ite_single _ _ _ ha]; decide)

/-- C8 witness: the amended statement evaluated on a clean URL (no test
fires: score 0 with the sentinel reason) and on a shortener URL with a
sensitive path (score is 15 per fired test). -/
theorem c8_url_score_amended_witness :
    urlCleanR.score = 0 ∧
    urlCleanR.reasons = ["No obvious URL red flags detected."] ∧
    urlShortR.score = 15 * (InboxGuard.sevenTestCount "http://bit.ly/login" : Int) := by
  obtain ⟨h1, h2⟩ := (c8_url_score_amended "https://example.com" "example.com" (by rfl)
    urlCleanR (by rfl)).1 (by decide)
  obtain ⟨h3, h4⟩ := h2 (by rfl)
  refine ⟨h3, h4, ?_⟩
  exact ((c8_url_score_amended "http://bit.ly/login" "bit.ly" (by rfl)
    urlShortR (by rfl)).1 (by decide)).1
